import Mathlib

/-!
Verification of the Pioneer split-type air-conditioner serial protocol codec
(temperature codec, XOR checksum engine, frame encoder).

The development is a shallow embedding of the C++ source: bytes are modelled
as natural numbers (all stored values stay below 256, so no wrap-around is
needed except where the source casts explicitly), `double` temperature values
are modelled as rationals (every value the codec distinguishes is a multiple
of one quarter, hence exactly representable both as a binary double and as a
rational, so the embedding is exact on the inputs the claims range over), and
`std::vector<unsigned char>` is modelled as `List Nat`.

Modelling notes, each marked again at its definition:
- `std::unordered_map::operator[]` applied to a missing key inserts a
  value-initialized entry (zero) and returns it; the lookup tables are
  therefore modelled as total functions returning 0 on unmapped keys.
- the source writes `command[28]` and `command[29]` although the `command`
  vector holds 24 elements; `List.set` past the end of the list is the
  identity, which matches the observable content of the emitted frame (the
  out-of-range stores never reach the 24 bytes that are copied into the
  message).  The write indices themselves are tabulated separately in
  `command_write_indices` so that the bounds claim can be settled honestly.
- `std::vector::back()` on an empty vector is undefined; the checksum
  verifier returns `false` on the empty list, a case no claim exercises.
-/

namespace Pioneer

/-- Sleep profile codes, from the source enumeration `SleepMode`. -/
inductive SleepMode : Type
| OFF
| STANDARD
| THE_AGED
| CHILD
deriving DecidableEq

/-- Numeric value carried by each `SleepMode` constant in the source. -/
def SleepMode.code : SleepMode → ℕ
| .OFF => 0x0
| .STANDARD => 0x1
| .THE_AGED => 0x2
| .CHILD => 0x3

/-- Fan speed selector, from the source enumeration `WindSpeed`. -/
inductive WindSpeed : Type
| AUTO
| ONE
| TWO
| THREE
| FOUR
| FIVE
| SIX
| MUTE
deriving DecidableEq

/-- Numeric value carried by each `WindSpeed` constant in the source. -/
def WindSpeed.code : WindSpeed → ℕ
| .AUTO => 0
| .ONE => 1
| .TWO => 2
| .THREE => 3
| .FOUR => 4
| .FIVE => 5
| .SIX => 6
| .MUTE => 7

/-- Climate mode, from the source enumeration `Mode`. -/
inductive Mode : Type
| HEAT
| DEHUMIDIFY
| COOL
| FAN
| AUTO
deriving DecidableEq

/-- Numeric value carried by each `Mode` constant in the source. -/
def Mode.code : Mode → ℕ
| .HEAT => 0x1
| .DEHUMIDIFY => 0x2
| .COOL => 0x3
| .FAN => 0x7
| .AUTO => 0x8

/-- Vertical swing selector, from the source enumeration `FanUpDown`. -/
inductive FanUpDown : Type
| AUTO
| UP_DOWN_FLOW
| UP_FLOW
| DOWN_FLOW
| TOP_FIX
| UPPER_FIX
| MIDDLE_FIX
| ABOVE_DOWN_FIX
| BOTTOM_FIX
deriving DecidableEq

/-- Numeric value carried by each `FanUpDown` constant in the source. -/
def FanUpDown.code : FanUpDown → ℕ
| .AUTO => 0x0
| .UP_DOWN_FLOW => 0x18
| .UP_FLOW => 0x10
| .DOWN_FLOW => 0x08
| .TOP_FIX => 0x01
| .UPPER_FIX => 0x02
| .MIDDLE_FIX => 0x03
| .ABOVE_DOWN_FIX => 0x04
| .BOTTOM_FIX => 0x05

/-- Horizontal swing selector, from the source enumeration `FanLeftRight`. -/
inductive FanLeftRight : Type
| AUTO
| LEFT_RIGHT_FLOW
| LEFT_FLOW
| MIDDLE_FLOW
| RIGHT_FLOW
| LEFT_FIX
| LEFT_MIDDLE_FIX
| MIDDLE_FIX
| RIGHT_MIDDLE_FIX
| RIGHT_FIX
deriving DecidableEq

/-- Numeric value carried by each `FanLeftRight` constant in the source. -/
def FanLeftRight.code : FanLeftRight → ℕ
| .AUTO => 0x0
| .LEFT_RIGHT_FLOW => 0x08
| .LEFT_FLOW => 0x10
| .MIDDLE_FLOW => 0x18
| .RIGHT_FLOW => 0x20
| .LEFT_FIX => 0x01
| .LEFT_MIDDLE_FIX => 0x02
| .MIDDLE_FIX => 0x3
| .RIGHT_MIDDLE_FIX => 0x4
| .RIGHT_FIX => 0x5

/-- Truncation toward zero, the behaviour of a C++ `static_cast<int>` on a
floating-point value. -/
def truncToInt (q : ℚ) : ℤ := if 0 ≤ q then ⌊q⌋ else ⌈q⌉

/-- Reduction of an integer to an unsigned 8-bit value, the behaviour of a
C++ `static_cast<unsigned char>`. -/
def byteOf (z : ℤ) : ℕ := (z % 256).toNat

/-- Source `toNearestQuarter`: quantize downward to a quarter degree. -/
def toNearestQuarter (num : ℚ) : ℚ := (⌊num * 4⌋ : ℚ) / 4

/-- The fractional-part lookup table `final_nibble_options` used by the
source `tempToPioneerHex`.  The source indexes a `std::unordered_map` with
`operator[]`, which yields a value-initialized `unsigned char` (that is, 0)
for any key outside the four listed ones. -/
def finalNibbleCode (frac : ℚ) : ℕ :=
if frac = 0 then 0x0
else if frac = 1/4 then 0x4
else if frac = 1/2 then 0x8
else if frac = 3/4 then 0xc
else 0

/-- Source `tempToPioneerHex`: encode a Celsius temperature as the pair of
bytes `[first_nibble, final_nibble]`. -/
def tempToPioneerHex (celsius : ℚ) : List ℕ :=
let c := toNearestQuarter celsius
let first_nibble : ℕ := byteOf (31 - truncToInt c)
let final_nibble : ℕ := finalNibbleCode (c - (⌊c⌋ : ℚ))
[first_nibble, final_nibble]

/-- The fractional-part lookup table `final_nibble_options` used by the
source `fromPioneerHex`.  As above, `operator[]` on the source map yields a
value-initialized `double` (that is, 0.0) for any key outside the four
listed ones. -/
def lastNibbleFrac (last_nibble : ℕ) : ℚ :=
if last_nibble = 0x0 then 0
else if last_nibble = 0x4 then 1/4
else if last_nibble = 0x8 then 1/2
else if last_nibble = 0xc then 3/4
else 0

/-- Source `fromPioneerHex`: decode the two temperature bytes back to a
Celsius value. -/
def fromPioneerHex (first_nibble last_nibble : ℕ) : ℚ :=
(31 - (first_nibble : ℚ)) + lastNibbleFrac last_nibble

/-- Source `calc_xor_checksum`: XOR-fold of a byte sequence. -/
def calc_xor_checksum (my_bytes : List ℕ) : ℕ :=
my_bytes.foldl (fun result byte => result ^^^ byte) 0

/-- Source `check_xor_checksum`: take the last byte as the stored checksum,
XOR-fold the rest and compare.  `back()` on an empty vector is undefined
behaviour in the source; the empty case (returning `false` here) is never
exercised by any claim. -/
def check_xor_checksum (my_bytes : List ℕ) : Bool :=
match my_bytes.getLast? with
| none => false
| some current_checksum =>
  (my_bytes.dropLast.foldl (fun result byte => result ^^^ byte) 0) == current_checksum

/-- The four hard-coded informational frames of the source
`get_unknown_message`. -/
def unknown_messages : List (List ℕ) :=
[[0xbb, 0x00, 0x01, 0x04, 0x02, 0x01, 0x00, 0xbd],
 [0xbb, 0x00, 0x01, 0x0a, 0x03, 0x05, 0x00, 0x00, 0xb6],
 [0xbb, 0x00, 0x01, 0x09, 0x02, 0x05, 0x00, 0xb4],
 [0xbb, 0x00, 0x01, 0x0a, 0x03, 0x05, 0x00, 0x08, 0xbe]]

/-- Source `get_unknown_message`: returns `messages[num - 1]`.  The source
indexes a `std::vector` with `operator[]`, for which any index outside
`0 .. 3` is undefined behaviour; the fallible access is modelled with
`Option`, returning `none` exactly when the source access is out of
bounds. -/
def get_unknown_message (num : ℤ) : Option (List ℕ) :=
if 0 ≤ num - 1 then unknown_messages[(num - 1).toNat]? else none

/-- The initial value of the `command` vector in `generate_message`
(24 bytes, with fixed nonzero defaults at offsets 4, 6, 7, 22 and 23). -/
def command_template : List ℕ :=
[0x00, 0x00, 0x00, 0x00, 0x5c, 0x00, 0x04, 0x80,
 0x00, 0x00, 0x00, 0x00, 0x00, 0x00, 0x00, 0x00,
 0x00, 0x00, 0x00, 0x00, 0x00, 0x00, 0x80, 0x99]

/-- One source statement `command[i] = command[i] | v`.  A store past the
end of the list is dropped (see the modelling note in the header). -/
def orAt (l : List ℕ) (i v : ℕ) : List ℕ := l.set i (l.getD i 0 ||| v)

/-- One source statement `command[i] = command[i] & v` (the source writes
the mask as `~0xc0`; on values below 256 this equals masking with 0x3f). -/
def andAt (l : List ℕ) (i v : ℕ) : List ℕ := l.set i (l.getD i 0 &&& v)

/-- Source lines 205-219: the power, display, buzzer and eco flags OR into
command byte 3. -/
def apply_flags (is_on is_display_on is_buzzer_on is_eco : Bool) (command : List ℕ) : List ℕ :=
let command := if is_on then orAt command 3 0x04 else command
let command := if is_display_on then orAt command 3 0x40 else command
let command := if is_buzzer_on then orAt command 3 0x20 else command
if is_eco then orAt command 3 0x80 else command

/-- Source lines 221-223: the 8-degree-heater flag ORs into command byte 6. -/
def apply_heater (is_8_deg_heater : Bool) (command : List ℕ) : List ℕ :=
if is_8_deg_heater then orAt command 6 0x80 else command

/-- Source lines 225-227: the health flag ORs into command byte 4. -/
def apply_health (is_health_on : Bool) (command : List ℕ) : List ℕ :=
if is_health_on then orAt command 4 0x10 else command

/-- Source line 229: the sleep-mode code ORs into command byte 15. -/
def apply_sleep (sleep_mode : SleepMode) (command : List ℕ) : List ℕ :=
orAt command 15 sleep_mode.code

/-- The `speeds` table of source line 240 (a `std::map` read with
`operator[]`, which would yield 0 for a missing key; keys 1-5 cover every
value that can reach the lookup). -/
def speeds_table (n : ℕ) : ℕ :=
if n = 1 then 0x2
else if n = 2 then 0x06
else if n = 3 then 0x03
else if n = 4 then 0x07
else if n = 5 then 0x05
else 0

/-- Source lines 231-242: the fan-speed cascade.  `AUTO` contributes
nothing; `MUTE` and `SIX` OR fixed bits into command bytes 4 and 6; every
other speed first clears the top two bits of command byte 4
(`command[4] & ~0xc0`) and then ORs a per-speed code into command byte 6. -/
def apply_wind (wind_speed : WindSpeed) (command : List ℕ) : List ℕ :=
if wind_speed = .AUTO then command
else if wind_speed = .MUTE then orAt (orAt command 4 0x80) 6 0x02
else if wind_speed = .SIX then orAt (orAt command 4 0x40) 6 0x05
else orAt (andAt command 4 0x3f) 6 (speeds_table wind_speed.code)

/-- Source line 244: the climate-mode code ORs into command byte 4. -/
def apply_mode (mode : Mode) (command : List ℕ) : List ℕ :=
orAt command 4 mode.code

/-- Source lines 246-248: the two temperature bytes OR into command bytes 9
and 11. -/
def apply_temp (temp_celsius : ℚ) (command : List ℕ) : List ℕ :=
let temp_bytes := tempToPioneerHex temp_celsius
orAt (orAt command 9 (temp_bytes.getD 0 0)) 11 (temp_bytes.getD 1 0)

/-- Source lines 250-254: the vertical-swing step.  The flow variants OR
0x38 into command byte 6; the swing code is then ORed into command
byte 28 unconditionally — an index past the 24-entry vector. -/
def apply_up_down (up_down_mode : FanUpDown) (command : List ℕ) : List ℕ :=
let command :=
  if up_down_mode = .UP_DOWN_FLOW ∨ up_down_mode = .UP_FLOW ∨ up_down_mode = .DOWN_FLOW
  then orAt command 6 0x38 else command
orAt command 28 up_down_mode.code

/-- Source lines 256-260: the horizontal-swing step.  The flow variants OR
0x08 into command byte 7; the swing code is then ORed into command
byte 29 unconditionally — an index past the 24-entry vector. -/
def apply_left_right (left_right_mode : FanLeftRight) (command : List ℕ) : List ℕ :=
let command :=
  if left_right_mode = .LEFT_RIGHT_FLOW ∨ left_right_mode = .LEFT_FLOW ∨
     left_right_mode = .MIDDLE_FLOW ∨ left_right_mode = .RIGHT_FLOW
  then orAt command 7 0x08 else command
orAt command 29 left_right_mode.code

/-- Source `generate_message` (lines 195-269): reject temperatures outside
[16, 31]; otherwise build the command body from `command_template` by the
fixed sequence of flag, sleep, fan-speed, mode, temperature and swing
steps, concatenate it after the header `bb 00 01 03`, and append the XOR
checksum of the whole. -/
def generate_message (mode : Mode) (temp_celsius : ℚ) (wind_speed : WindSpeed)
    (up_down_mode : FanUpDown) (left_right_mode : FanLeftRight) (sleep_mode : SleepMode)
    (is_on is_display_on is_buzzer_on is_eco is_8_deg_heater is_health_on : Bool) : List ℕ :=
if temp_celsius > 31 ∨ temp_celsius < 16 then []
else
  let command :=
    apply_left_right left_right_mode
      (apply_up_down up_down_mode
        (apply_temp temp_celsius
          (apply_mode mode
            (apply_wind wind_speed
              (apply_sleep sleep_mode
                (apply_health is_health_on
                  (apply_heater is_8_deg_heater
                    (apply_flags is_on is_display_on is_buzzer_on is_eco command_template))))))))
  let message := [0xbb, 0x00, 0x01, 0x03] ++ command
  message ++ [calc_xor_checksum message]

/-- The order-swapped variant of the encoder discussed by the claim on step
ordering: identical to `generate_message` except that the climate-mode OR
into command byte 4 is performed before the fan-speed cascade instead of
after it. -/
def generate_message_swapped (mode : Mode) (temp_celsius : ℚ) (wind_speed : WindSpeed)
    (up_down_mode : FanUpDown) (left_right_mode : FanLeftRight) (sleep_mode : SleepMode)
    (is_on is_display_on is_buzzer_on is_eco is_8_deg_heater is_health_on : Bool) : List ℕ :=
if temp_celsius > 31 ∨ temp_celsius < 16 then []
else
  let command :=
    apply_left_right left_right_mode
      (apply_up_down up_down_mode
        (apply_temp temp_celsius
          (apply_wind wind_speed
            (apply_mode mode
              (apply_sleep sleep_mode
                (apply_health is_health_on
                  (apply_heater is_8_deg_heater
                    (apply_flags is_on is_display_on is_buzzer_on is_eco command_template))))))))
  let message := [0xbb, 0x00, 0x01, 0x03] ++ command
  let message := message ++ [calc_xor_checksum message]
  message

/-- The indices of the `command` vector that the source `generate_message`
stores into, in program order, for a given argument vector (the climate
mode and sleep writes are unconditional; the flag and flow writes are
guarded exactly as in the source; nothing is written when the temperature
is rejected). -/
def command_write_indices (temp_celsius : ℚ) (wind_speed : WindSpeed)
    (up_down_mode : FanUpDown) (left_right_mode : FanLeftRight)
    (is_on is_display_on is_buzzer_on is_eco is_8_deg_heater is_health_on : Bool) : List ℕ :=
if temp_celsius > 31 ∨ temp_celsius < 16 then []
else
  (if is_on then [3] else []) ++
  (if is_display_on then [3] else []) ++
  (if is_buzzer_on then [3] else []) ++
  (if is_eco then [3] else []) ++
  (if is_8_deg_heater then [6] else []) ++
  (if is_health_on then [4] else []) ++
  [15] ++
  (if wind_speed = .AUTO then []
   else if wind_speed = .MUTE then [4, 6]
   else if wind_speed = .SIX then [4, 6]
   else [4, 6]) ++
  [4, 9, 11] ++
  (if up_down_mode = .UP_DOWN_FLOW ∨ up_down_mode = .UP_FLOW ∨ up_down_mode = .DOWN_FLOW
   then [6] else []) ++
  [28] ++
  (if left_right_mode = .LEFT_RIGHT_FLOW ∨ left_right_mode = .LEFT_FLOW ∨
      left_right_mode = .MIDDLE_FLOW ∨ left_right_mode = .RIGHT_FLOW
   then [7] else []) ++
  [29]

/-- The frame produced for the all-default call of the source `main`:
mode Heat, 20 degrees, fan Auto, both swings Auto, sleep Off, power,
display and buzzer on, eco, heater and health off. -/
def default_message : List ℕ :=
generate_message .HEAT 20 .AUTO .AUTO .AUTO .OFF true true true false false false

/-- The frame produced by the same call with fan speed 3 instead of Auto. -/
def speed3_message : List ℕ :=
generate_message .HEAT 20 .THREE .AUTO .AUTO .OFF true true true false false false

/-! ### Helper lemmas about the XOR fold -/

/-- Folding XOR from an arbitrary accumulator factors the accumulator out. -/
theorem foldl_xor_eq (l : List ℕ) (a : ℕ) :
    l.foldl (fun result byte => result ^^^ byte) a =
      a ^^^ l.foldl (fun result byte => result ^^^ byte) 0 := by
  induction l generalizing a with
  | nil => simp
  | cons x t ih =>
    simp only [List.foldl_cons]
    rw [ih (a ^^^ x), ih (0 ^^^ x), Nat.zero_xor, Nat.xor_assoc]

/-- The checksum of a cons peels the head off with an XOR. -/
theorem calc_xor_cons (x : ℕ) (t : List ℕ) :
    calc_xor_checksum (x :: t) = x ^^^ calc_xor_checksum t := by
  simp only [calc_xor_checksum, List.foldl_cons, Nat.zero_xor]
  exact foldl_xor_eq t x

/-- Appending the computed checksum always verifies. -/
theorem check_append_calc (l : List ℕ) :
    check_xor_checksum (l ++ [calc_xor_checksum l]) = true := by
  simp only [check_xor_checksum, List.getLast?_concat, List.dropLast_concat]
  simp [calc_xor_checksum]

/-- XOR-ing a mask into any in-range element XORs the mask into the
checksum. -/
theorem calc_xor_set_flip (l : List ℕ) (i m : ℕ) (h : i < l.length) :
    calc_xor_checksum (l.set i (l.getD i 0 ^^^ m)) = calc_xor_checksum l ^^^ m := by
  induction l generalizing i with
  | nil => simp at h
  | cons x t ih =>
    cases i with
    | zero =>
      simp only [List.getD_cons_zero, List.set_cons_zero, calc_xor_cons]
      rw [Nat.xor_assoc, Nat.xor_comm m, ← Nat.xor_assoc]
    | succ j =>
      simp only [List.getD_cons_succ, List.set_cons_succ, calc_xor_cons]
      rw [ih j (by simpa using h), ← Nat.xor_assoc]

/-! ### Helper lemmas about the byte-store primitives -/

/-- Reading back a just-stored in-range element. -/
theorem getD_set_self (l : List ℕ) (i v : ℕ) (h : i < l.length) :
    (l.set i v).getD i 0 = v := by
  rw [List.getD_eq_getElem?_getD, List.getElem?_set_self h]
  rfl

/-- Reading an element other than the stored one. -/
theorem getD_set_ne (l : List ℕ) (i j v : ℕ) (h : i ≠ j) :
    (l.set i v).getD j 0 = l.getD j 0 := by
  rw [List.getD_eq_getElem?_getD, List.getElem?_set_ne h, ← List.getD_eq_getElem?_getD]

/-- A store past the end of the list is dropped. -/
theorem orAt_oob (l : List ℕ) (i v : ℕ) (h : l.length ≤ i) : orAt l i v = l := by
  simp [orAt, List.set_eq_of_length_le h]

/-- Two ORs into the same offset fuse. -/
theorem orAt_orAt_same (l : List ℕ) (i a b : ℕ) :
    orAt (orAt l i a) i b = orAt l i (a ||| b) := by
  by_cases h : i < l.length
  · simp only [orAt, getD_set_self l i _ h, List.set_set, Nat.lor_assoc]
  · have h2 : l.length ≤ i := le_of_not_lt h
    rw [orAt_oob l i a h2, orAt_oob l i b h2, orAt_oob l i _ h2]

/-- ORs into distinct offsets commute. -/
theorem orAt_comm_ne (l : List ℕ) (i j a b : ℕ) (h : i ≠ j) :
    orAt (orAt l i a) j b = orAt (orAt l j b) i a := by
  simp only [orAt, getD_set_ne _ _ _ _ h, getD_set_ne _ _ _ _ (Ne.symm h)]
  exact List.set_comm _ _ _ h

/-- OR distributes over AND on naturals, bitwise. -/
theorem lor_land_distrib (a b c : ℕ) : (a ||| b) &&& c = (a &&& c) ||| (b &&& c) := by
  apply Nat.eq_of_testBit_eq
  intro i
  simp only [Nat.testBit_land, Nat.testBit_lor]
  cases a.testBit i <;> cases b.testBit i <;> cases c.testBit i <;> rfl

/-- An OR whose mask survives the AND can be hoisted past the AND at the
same offset. -/
theorem orAt_andAt_same (l : List ℕ) (i a b : ℕ) (hab : b &&& a = b) :
    orAt (andAt l i a) i b = andAt (orAt l i b) i a := by
  by_cases h : i < l.length
  · simp only [orAt, andAt, getD_set_self l i _ h, List.set_set]
    rw [lor_land_distrib, hab]
  · have h2 : l.length ≤ i := le_of_not_lt h
    simp [orAt, andAt, List.set_eq_of_length_le h2]

/-! ### Length preservation of the encoder steps -/

/-- `orAt` preserves list length. -/
theorem orAt_length (l : List ℕ) (i v : ℕ) : (orAt l i v).length = l.length := by
  simp [orAt]

/-- `andAt` preserves list length. -/
theorem andAt_length (l : List ℕ) (i v : ℕ) : (andAt l i v).length = l.length := by
  simp [andAt]

/-- The flags step preserves list length. -/
theorem apply_flags_length (b1 b2 b3 b4 : Bool) (c : List ℕ) :
    (apply_flags b1 b2 b3 b4 c).length = c.length := by
  simp only [apply_flags]
  split_ifs <;> simp [orAt]

/-- The heater step preserves list length. -/
theorem apply_heater_length (b : Bool) (c : List ℕ) :
    (apply_heater b c).length = c.length := by
  simp only [apply_heater]
  split_ifs <;> simp [orAt]

/-- The health step preserves list length. -/
theorem apply_health_length (b : Bool) (c : List ℕ) :
    (apply_health b c).length = c.length := by
  simp only [apply_health]
  split_ifs <;> simp [orAt]

/-- The sleep step preserves list length. -/
theorem apply_sleep_length (s : SleepMode) (c : List ℕ) :
    (apply_sleep s c).length = c.length := by
  simp [apply_sleep, orAt]

/-- The fan-speed step preserves list length. -/
theorem apply_wind_length (w : WindSpeed) (c : List ℕ) :
    (apply_wind w c).length = c.length := by
  simp only [apply_wind]
  split_ifs <;> simp [orAt, andAt]

/-- The mode step preserves list length. -/
theorem apply_mode_length (m : Mode) (c : List ℕ) :
    (apply_mode m c).length = c.length := by
  simp [apply_mode, orAt]

/-- The temperature step preserves list length. -/
theorem apply_temp_length (t : ℚ) (c : List ℕ) :
    (apply_temp t c).length = c.length := by
  simp [apply_temp, orAt]

/-- The vertical-swing step preserves list length. -/
theorem apply_up_down_length (u : FanUpDown) (c : List ℕ) :
    (apply_up_down u c).length = c.length := by
  simp only [apply_up_down]
  split_ifs <;> simp [orAt]

/-- The horizontal-swing step preserves list length. -/
theorem apply_left_right_length (v : FanLeftRight) (c : List ℕ) :
    (apply_left_right v c).length = c.length := by
  simp only [apply_left_right]
  split_ifs <;> simp [orAt]

/-! ### Unfolding the encoder on an accepted temperature -/

/-- On an in-range temperature the encoder is the header, the fully built
command body, and the checksum of header plus body. -/
theorem generate_message_body (mode : Mode) (t : ℚ) (w : WindSpeed) (ud : FanUpDown)
    (lr : FanLeftRight) (s : SleepMode) (b1 b2 b3 b4 b5 b6 : Bool)
    (h : ¬ (t > 31 ∨ t < 16)) :
    generate_message mode t w ud lr s b1 b2 b3 b4 b5 b6 =
      ([0xbb, 0x00, 0x01, 0x03] ++
        apply_left_right lr
          (apply_up_down ud
            (apply_temp t
              (apply_mode mode
                (apply_wind w
                  (apply_sleep s
                    (apply_health b6
                      (apply_heater b5 (apply_flags b1 b2 b3 b4 command_template))))))))) ++
      [calc_xor_checksum
        ([0xbb, 0x00, 0x01, 0x03] ++
          apply_left_right lr
            (apply_up_down ud
              (apply_temp t
                (apply_mode mode
                  (apply_wind w
                    (apply_sleep s
                      (apply_health b6
                        (apply_heater b5 (apply_flags b1 b2 b3 b4 command_template)))))))))] := by
  simp only [generate_message, if_neg h]

/-- The length of every accepted frame is 29 bytes. -/
theorem generate_message_length (mode : Mode) (t : ℚ) (w : WindSpeed) (ud : FanUpDown)
    (lr : FanLeftRight) (s : SleepMode) (b1 b2 b3 b4 b5 b6 : Bool)
    (h : ¬ (t > 31 ∨ t < 16)) :
    (generate_message mode t w ud lr s b1 b2 b3 b4 b5 b6).length = 29 := by
  rw [generate_message_body mode t w ud lr s b1 b2 b3 b4 b5 b6 h]
  simp [apply_left_right_length, apply_up_down_length, apply_temp_length,
    apply_mode_length, apply_wind_length, apply_sleep_length, apply_health_length,
    apply_heater_length, apply_flags_length, command_template]

/-- The temperature bytes for 20 degrees Celsius. -/
theorem tempToPioneerHex_twenty : tempToPioneerHex 20 = [11, 0] := by
  norm_num [tempToPioneerHex, toNearestQuarter, truncToInt, byteOf, finalNibbleCode]
  decide

/-- The all-default frame, fully evaluated. -/
theorem default_message_eq :
    default_message =
      [0xbb, 0x00, 0x01, 0x03, 0x00, 0x00, 0x00, 0x64, 0x5d, 0x00, 0x04, 0x80,
       0x00, 0x0b, 0x00, 0x00, 0x00, 0x00, 0x00, 0x00, 0x00, 0x00, 0x00, 0x00,
       0x00, 0x00, 0x80, 0x99, 0x16] := by
  rw [default_message,
    generate_message_body .HEAT 20 .AUTO .AUTO .AUTO .OFF true true true false false false
      (by norm_num)]
  simp only [apply_temp, tempToPioneerHex_twenty]
  decide

/-- The fan-speed-3 frame, fully evaluated. -/
theorem speed3_message_eq :
    speed3_message =
      [0xbb, 0x00, 0x01, 0x03, 0x00, 0x00, 0x00, 0x64, 0x1d, 0x00, 0x07, 0x80,
       0x00, 0x0b, 0x00, 0x00, 0x00, 0x00, 0x00, 0x00, 0x00, 0x00, 0x00, 0x00,
       0x00, 0x00, 0x80, 0x99, 0x55] := by
  rw [speed3_message,
    generate_message_body .HEAT 20 .THREE .AUTO .AUTO .OFF true true true false false false
      (by norm_num)]
  simp only [apply_temp, tempToPioneerHex_twenty]
  decide

/-! ### Claim theorems -/

/-- Claim C1, counterexample: the frame for `generate_message(Heat, 20)`
with every optional flag at its default is not the literal obtained by
OR-ing only the power bit, the Heat code and the temperature nibbles into a
zeroed template; in particular body byte 3 (frame offset 7) is not 0x04 and
body byte 4 (frame offset 8) is not 0x01. -/
theorem heat20_defaults_not_claimed_literal :
    default_message ≠
      [0xbb, 0x00, 0x01, 0x03, 0x00, 0x00, 0x00, 0x04, 0x01, 0x00, 0x00, 0x00,
       0x00, 0x0b, 0x00, 0x00, 0x00, 0x00, 0x00, 0x00, 0x00, 0x00, 0x00, 0x00,
       0x00, 0x00, 0x00, 0x00, 0xb7] ∧
    default_message.getD 7 0 ≠ 0x04 ∧ default_message.getD 8 0 ≠ 0x01 := by
  refine ⟨?_, ?_, ?_⟩ <;> rw [default_message_eq] <;> decide

/-- Claim C1, amended: the call `generate_message(Heat, 20.0)` with fan
Auto, both swings Auto, sleep Off and the remaining flags at their source
defaults (power, display and buzzer true; eco, heater, health false)
returns exactly the 29-byte frame built from the nonzero defaults template:
body byte 3 is 0x64 (power 0x04 OR display 0x40 OR buzzer 0x20), body
byte 4 is 0x5d (template default 0x5c OR Heat 0x1), body byte 9 is 0x0b,
body byte 11 is 0x00, and the checksum 0x16 is appended; the body holds
only 24 bytes, so frame offset 28 is the checksum, and no body offset 28
exists. -/
theorem heat20_defaults_frame :
    default_message =
      [0xbb, 0x00, 0x01, 0x03, 0x00, 0x00, 0x00, 0x64, 0x5d, 0x00, 0x04, 0x80,
       0x00, 0x0b, 0x00, 0x00, 0x00, 0x00, 0x00, 0x00, 0x00, 0x00, 0x00, 0x00,
       0x00, 0x00, 0x80, 0x99, 0x16] ∧
    default_message.getD (4 + 3) 0 = 0x64 ∧
    default_message.getD (4 + 4) 0 = 0x5d ∧
    default_message.getD (4 + 9) 0 = 0x0b ∧
    default_message.getD (4 + 11) 0 = 0x00 ∧
    default_message.getD 28 0 = 0x16 ∧
    ((default_message.drop 4).dropLast).length = 24 := by
  refine ⟨default_message_eq, ?_, ?_, ?_, ?_, ?_, ?_⟩ <;> rw [default_message_eq] <;> decide

/-- Claim C4: the encoder returns the empty result exactly when the
requested temperature lies strictly above 31 or strictly below 16, whatever
the other arguments; on every temperature in [16, 31] it produces a
29-byte frame. -/
theorem out_of_range_rejection (mode : Mode) (t : ℚ) (w : WindSpeed) (ud : FanUpDown)
    (lr : FanLeftRight) (s : SleepMode) (b1 b2 b3 b4 b5 b6 : Bool) :
    (generate_message mode t w ud lr s b1 b2 b3 b4 b5 b6 = [] ↔ (t > 31 ∨ t < 16)) ∧
    (16 ≤ t → t ≤ 31 → (generate_message mode t w ud lr s b1 b2 b3 b4 b5 b6).length = 29) := by
  constructor
  · constructor
    · intro he
      by_contra hc
      have h29 := generate_message_length mode t w ud lr s b1 b2 b3 b4 b5 b6 hc
      rw [he] at h29
      simp at h29
    · intro h
      simp only [generate_message, if_pos h]
  · intro h16 h31
    exact generate_message_length mode t w ud lr s b1 b2 b3 b4 b5 b6
      (not_or.mpr ⟨not_lt.mpr h31, not_lt.mpr h16⟩)

/-- Claim C4, witness: 31.5 and 15.5 degrees are rejected with an empty
result while 20 degrees yields a 29-byte frame. -/
theorem out_of_range_rejection_witness :
    generate_message .HEAT (63/2) .AUTO .AUTO .AUTO .OFF true true true false false false = [] ∧
    generate_message .HEAT (31/2) .AUTO .AUTO .AUTO .OFF true true true false false false = [] ∧
    (generate_message .HEAT 20 .AUTO .AUTO .AUTO .OFF true true true false false false).length = 29 :=
  ⟨(out_of_range_rejection .HEAT (63/2) .AUTO .AUTO .AUTO .OFF
      true true true false false false).1.mpr (by norm_num),
   (out_of_range_rejection .HEAT (31/2) .AUTO .AUTO .AUTO .OFF
      true true true false false false).1.mpr (by norm_num),
   (out_of_range_rejection .HEAT 20 .AUTO .AUTO .AUTO .OFF
      true true true false false false).2 (by norm_num) (by norm_num)⟩

/-- Claim C5: the source stores into command indices 28 and 29
unconditionally, yet the command body it builds has only 24 entries
(indices 0 to 23) — the swing-code writes of steps 8 and 9 are
out-of-bounds accesses, contradicting the claim that every write is
in-bounds. -/
theorem swing_writes_out_of_bounds :
    28 ∈ command_write_indices 20 .AUTO .AUTO .AUTO true true true false false false ∧
    29 ∈ command_write_indices 20 .AUTO .AUTO .AUTO true true true false false false ∧
    command_template.length = 24 ∧
    ¬ (28 < command_template.length) ∧
    ¬ (29 < command_template.length) := by
  have h : ¬ ((20:ℚ) > 31 ∨ (20:ℚ) < 16) := by norm_num
  refine ⟨?_, ?_, ?_, ?_, ?_⟩
  · simp only [command_write_indices, if_neg h]
    decide
  · simp only [command_write_indices, if_neg h]
    decide
  · decide
  · decide
  · decide

/-- Claim C6, amended: every frame produced on an in-range temperature
ends in the XOR-fold of all preceding bytes and is 29 bytes long; but the
length byte (the 4th header byte) is the constant 0x03 and does not equal
the body length plus one (24 + 1 = 25). -/
theorem frame_checksum_invariant (mode : Mode) (t : ℚ) (w : WindSpeed) (ud : FanUpDown)
    (lr : FanLeftRight) (s : SleepMode) (b1 b2 b3 b4 b5 b6 : Bool)
    (h16 : 16 ≤ t) (h31 : t ≤ 31) :
    check_xor_checksum (generate_message mode t w ud lr s b1 b2 b3 b4 b5 b6) = true ∧
    (generate_message mode t w ud lr s b1 b2 b3 b4 b5 b6).length = 29 ∧
    (generate_message mode t w ud lr s b1 b2 b3 b4 b5 b6).getD 3 0 = 0x03 ∧
    (generate_message mode t w ud lr s b1 b2 b3 b4 b5 b6).getD 3 0 ≠ 24 + 1 := by
  have h : ¬ (t > 31 ∨ t < 16) := not_or.mpr ⟨not_lt.mpr h31, not_lt.mpr h16⟩
  have hg : (generate_message mode t w ud lr s b1 b2 b3 b4 b5 b6).getD 3 0 = 0x03 := by
    rw [generate_message_body mode t w ud lr s b1 b2 b3 b4 b5 b6 h]
    rfl
  refine ⟨?_, generate_message_length mode t w ud lr s b1 b2 b3 b4 b5 b6 h, hg, ?_⟩
  · rw [generate_message_body mode t w ud lr s b1 b2 b3 b4 b5 b6 h]
    exact check_append_calc _
  · rw [hg]
    decide

/-- Claim C6, witness: the invariant instantiated on the default call at
20 degrees. -/
theorem frame_checksum_invariant_witness :
    (16:ℚ) ≤ 20 ∧ (20:ℚ) ≤ 31 ∧
    check_xor_checksum
      (generate_message .HEAT 20 .AUTO .AUTO .AUTO .OFF true true true false false false) = true ∧
    (generate_message .HEAT 20 .AUTO .AUTO .AUTO .OFF true true true false false false).getD 3 0 ≠
      24 + 1 :=
  ⟨by norm_num, by norm_num,
   (frame_checksum_invariant .HEAT 20 .AUTO .AUTO .AUTO .OFF true true true false false false
      (by norm_num) (by norm_num)).1,
   (frame_checksum_invariant .HEAT 20 .AUTO .AUTO .AUTO .OFF true true true false false false
      (by norm_num) (by norm_num)).2.2.2⟩

/-- Claim C6, counterexample: on the default frame the length byte is
0x03 while the body is 24 bytes, so the length byte differs from body
length plus one. -/
theorem length_byte_not_body_length :
    default_message.getD 3 0 = 0x03 ∧
    default_message.length = 29 ∧
    ((default_message.drop 4).dropLast).length = 24 ∧
    default_message.getD 3 0 ≠ 24 + 1 := by
  refine ⟨?_, ?_, ?_, ?_⟩ <;> rw [default_message_eq] <;> decide

/-- Claim C7, amended: relative to the all-default frame, selecting fan
speed 3 changes only frame byte 8 (body byte 4, and only within the
fan-speed bits 0xc0), frame byte 10 (body byte 6, and only within the
fan-speed code bits 0x07) and the trailing checksum byte 28; the mode
nibble, the temperature bytes and the swing byte regions are untouched. -/
theorem speed3_field_independence :
    ((default_message.set 8 0).set 10 0).set 28 0 =
      ((speed3_message.set 8 0).set 10 0).set 28 0 ∧
    (default_message.getD 8 0 ^^^ speed3_message.getD 8 0) &&& 0xc0 =
      (default_message.getD 8 0 ^^^ speed3_message.getD 8 0) ∧
    (default_message.getD 10 0 ^^^ speed3_message.getD 10 0) &&& 0x07 =
      (default_message.getD 10 0 ^^^ speed3_message.getD 10 0) ∧
    default_message.getD 8 0 &&& 0x0f = speed3_message.getD 8 0 &&& 0x0f ∧
    default_message.getD 13 0 = speed3_message.getD 13 0 ∧
    default_message.getD 15 0 = speed3_message.getD 15 0 ∧
    default_message.getD 10 0 &&& 0x38 = speed3_message.getD 10 0 &&& 0x38 ∧
    default_message.getD 11 0 = speed3_message.getD 11 0 := by
  refine ⟨?_, ?_, ?_, ?_, ?_, ?_, ?_, ?_⟩ <;>
    simp only [default_message_eq, speed3_message_eq] <;> decide

/-- Claim C7, counterexample: the two frames also differ at frame byte 28,
the trailing checksum position, which is not a fan-speed bit position. -/
theorem speed3_checksum_differs :
    default_message.length = 29 ∧ speed3_message.length = 29 ∧
    default_message.getD 28 0 = 0x16 ∧ speed3_message.getD 28 0 = 0x55 ∧
    default_message.getD 28 0 ≠ speed3_message.getD 28 0 := by
  refine ⟨?_, ?_, ?_, ?_, ?_⟩ <;>
    simp only [default_message_eq, speed3_message_eq] <;> decide

/-- A frame split as payload plus trailing byte verifies exactly when the
trailing byte is the payload checksum. -/
theorem check_concat (l : List ℕ) (c : ℕ) :
    check_xor_checksum (l ++ [c]) = (calc_xor_checksum l == c) := by
  simp only [check_xor_checksum, List.getLast?_concat, List.dropLast_concat, calc_xor_checksum]

/-- Claim C3: appending the computed XOR checksum to any nonempty byte
sequence verifies, and flipping any single bit of any byte while keeping
the original checksum makes verification fail. -/
theorem checksum_verify_and_bitflip (b : List ℕ) (hb : b ≠ []) (i k : ℕ)
    (hi : i < b.length) (hk : k < 8) :
    check_xor_checksum (b ++ [calc_xor_checksum b]) = true ∧
    check_xor_checksum (b.set i (b.getD i 0 ^^^ 2 ^ k) ++ [calc_xor_checksum b]) = false := by
  refine ⟨check_append_calc b, ?_⟩
  rw [check_concat, calc_xor_set_flip b i (2 ^ k) hi]
  rw [beq_eq_false_iff_ne]
  intro heq
  have hzero : (2:ℕ) ^ k = 0 := by
    have h2 := congrArg (fun x => calc_xor_checksum b ^^^ x) heq
    simp only [← Nat.xor_assoc, Nat.xor_self, Nat.zero_xor] at h2
    exact h2
  have hpos : 0 < (2:ℕ) ^ k := pow_pos (by norm_num) k
  omega

/-- Claim C3, witness: instantiated on the two-byte sequence `bb 01`,
flipping bit 0 of byte 0. -/
theorem checksum_verify_and_bitflip_witness :
    (([0xbb, 0x01] : List ℕ) ≠ [] ∧ 0 < ([0xbb, 0x01] : List ℕ).length ∧ (0:ℕ) < 8) ∧
    check_xor_checksum ([0xbb, 0x01] ++ [calc_xor_checksum [0xbb, 0x01]]) = true ∧
    check_xor_checksum
      (([0xbb, 0x01] : List ℕ).set 0 ((([0xbb, 0x01] : List ℕ).getD 0 0) ^^^ 2 ^ 0) ++
        [calc_xor_checksum [0xbb, 0x01]]) = false :=
  ⟨⟨by decide, by decide, by decide⟩,
   (checksum_verify_and_bitflip [0xbb, 0x01] (by decide) 0 0 (by decide) (by decide)).1,
   (checksum_verify_and_bitflip [0xbb, 0x01] (by decide) 0 0 (by decide) (by decide)).2⟩

/-- Claim C9, counterexample: the unrecognized last nibble 0x1 does not
signal a decode error; the decoder returns the plain numeric temperature
20, the same value it returns for the recognized last nibble 0x0. -/
theorem unknown_nibble_returns_numeric :
    fromPioneerHex 11 1 = 20 ∧ fromPioneerHex 11 1 = fromPioneerHex 11 0 := by
  constructor <;> norm_num [fromPioneerHex, lastNibbleFrac]

/-- Claim C9, amended: for every last nibble outside the four recognized
codes, `fromPioneerHex` is still defined and returns `31 - first_nibble`
with fractional contribution zero (the C++ map lookup default-inserts
0.0); no decode error is signalled. -/
theorem unknown_nibble_decodes_zero_frac (f n : ℕ)
    (h0 : n ≠ 0x0) (h4 : n ≠ 0x4) (h8 : n ≠ 0x8) (hc : n ≠ 0xc) :
    fromPioneerHex f n = 31 - (f : ℚ) := by
  simp [fromPioneerHex, lastNibbleFrac, h0, h4, h8, hc]

/-- Claim C9, witness: the amended statement at first nibble 11 and
unrecognized last nibble 1. -/
theorem unknown_nibble_decodes_zero_frac_witness :
    ((1:ℕ) ≠ 0x0 ∧ (1:ℕ) ≠ 0x4 ∧ (1:ℕ) ≠ 0x8 ∧ (1:ℕ) ≠ 0xc) ∧
    fromPioneerHex 11 1 = 31 - ((11:ℕ) : ℚ) :=
  ⟨⟨by decide, by decide, by decide, by decide⟩,
   unknown_nibble_decodes_zero_frac 11 1 (by decide) (by decide) (by decide) (by decide)⟩

/-- Claim C10: the informational-frame lookup succeeds exactly for
arguments 1 to 4, and each of the four hard-coded frames it can return
carries a valid XOR checksum. -/
theorem unknown_messages_checksum_valid :
    (∀ num : ℤ, (get_unknown_message num).isSome = true ↔ (1 ≤ num ∧ num ≤ 4)) ∧
    (∀ num : ℤ, ∀ m, get_unknown_message num = some m → check_xor_checksum m = true) := by
  constructor
  · intro num
    by_cases h : (0:ℤ) ≤ num - 1
    · simp only [get_unknown_message, if_pos h]
      constructor
      · intro hs
        by_contra hc
        have h4 : 4 ≤ (num - 1).toNat := by omega
        rw [List.getElem?_eq_none (by simpa [unknown_messages] using h4)] at hs
        simp at hs
      · intro hb
        have hlt : (num - 1).toNat < unknown_messages.length := by
          simp only [unknown_messages, List.length_cons, List.length_nil]
          omega
        rw [List.getElem?_eq_getElem hlt]
        rfl
    · simp only [get_unknown_message, if_neg h, Option.isSome_none]
      constructor
      · intro hfalse
        exact absurd hfalse (by decide)
      · intro hb
        omega
  · intro num m hm
    by_cases h : (0:ℤ) ≤ num - 1
    · simp only [get_unknown_message, if_pos h] at hm
      have hlt : (num - 1).toNat < unknown_messages.length := by
        by_contra hc
        rw [List.getElem?_eq_none (le_of_not_lt hc)] at hm
        exact Option.noConfusion hm
      have h4 : (num - 1).toNat < 4 := by
        simpa [unknown_messages] using hlt
      have hcases : (num - 1).toNat = 0 ∨ (num - 1).toNat = 1 ∨
          (num - 1).toNat = 2 ∨ (num - 1).toNat = 3 := by omega
      rcases hcases with h0 | h0 | h0 | h0 <;>
        rw [h0] at hm <;>
        simp only [unknown_messages, List.getElem?_cons_zero, List.getElem?_cons_succ,
          Option.some.injEq] at hm <;>
        rw [← hm] <;> decide
    · simp only [get_unknown_message, if_neg h] at hm
      exact Option.noConfusion hm

/-- Claim C10, witness: the lookup at argument 1 succeeds and the returned
frame verifies. -/
theorem unknown_messages_checksum_valid_witness :
    ((get_unknown_message 1).isSome = true ↔ (1 ≤ (1:ℤ) ∧ (1:ℤ) ≤ 4)) ∧
    check_xor_checksum [0xbb, 0x00, 0x01, 0x04, 0x02, 0x01, 0x00, 0xbd] = true :=
  ⟨unknown_messages_checksum_valid.1 1,
   unknown_messages_checksum_valid.2 1 [0xbb, 0x00, 0x01, 0x04, 0x02, 0x01, 0x00, 0xbd]
     (by decide)⟩

/-! ### Commutation of the fan-speed and mode steps (claim C8) -/

/-- Every climate-mode code survives the fan-speed clearing mask: the
codes 0x1, 0x2, 0x3, 0x7, 0x8 all lie below 0x40. -/
theorem mode_code_land_mask (m : Mode) : Mode.code m &&& 0x3f = Mode.code m := by
  cases m <;> rfl

/-- The mode OR into command byte 4 commutes with the whole fan-speed
cascade: the cleared mask 0xc0 is disjoint from every mode code. -/
theorem apply_mode_apply_wind_comm (m : Mode) (w : WindSpeed) (c : List ℕ) :
    apply_mode m (apply_wind w c) = apply_wind w (apply_mode m c) := by
  simp only [apply_wind, apply_mode]
  split_ifs
  · rfl
  · rw [orAt_comm_ne _ 6 4 _ _ (by decide), orAt_orAt_same, orAt_orAt_same, Nat.lor_comm]
  · rw [orAt_comm_ne _ 6 4 _ _ (by decide), orAt_orAt_same, orAt_orAt_same, Nat.lor_comm]
  · rw [orAt_comm_ne _ 6 4 _ _ (by decide), orAt_andAt_same _ _ _ _ (mode_code_land_mask m)]

/-- Swapping the fan-speed and mode steps never changes the frame. -/
theorem swap_steps_eq (mode : Mode) (t : ℚ) (w : WindSpeed) (ud : FanUpDown)
    (lr : FanLeftRight) (s : SleepMode) (b1 b2 b3 b4 b5 b6 : Bool) :
    generate_message_swapped mode t w ud lr s b1 b2 b3 b4 b5 b6 =
      generate_message mode t w ud lr s b1 b2 b3 b4 b5 b6 := by
  simp only [generate_message, generate_message_swapped, apply_mode_apply_wind_comm]

/-- Claim C8, amended: the ordering of the fan-speed step and the mode
step is not load-bearing; performing the mode OR before the fan-speed
cascade yields exactly the same frame for every input, because the cleared
top bits 0xc0 of command byte 4 are disjoint from every mode code. -/
theorem mode_wind_order_equiv (mode : Mode) (t : ℚ) (w : WindSpeed) (ud : FanUpDown)
    (lr : FanLeftRight) (s : SleepMode) (b1 b2 b3 b4 b5 b6 : Bool) :
    generate_message_swapped mode t w ud lr s b1 b2 b3 b4 b5 b6 =
      generate_message mode t w ud lr s b1 b2 b3 b4 b5 b6 :=
  swap_steps_eq mode t w ud lr s b1 b2 b3 b4 b5 b6

/-- Claim C8, counterexample: there is no input with fan speed outside
Auto, Mute and Speed6 on which the swapped-order encoder produces a
different frame — the negation of the claimed order dependence. -/
theorem no_order_dependent_input :
    ¬ ∃ (mode : Mode) (t : ℚ) (w : WindSpeed) (ud : FanUpDown) (lr : FanLeftRight)
        (s : SleepMode) (b1 b2 b3 b4 b5 b6 : Bool),
      (w ≠ .AUTO ∧ w ≠ .MUTE ∧ w ≠ .SIX) ∧
      generate_message_swapped mode t w ud lr s b1 b2 b3 b4 b5 b6 ≠
        generate_message mode t w ud lr s b1 b2 b3 b4 b5 b6 := by
  rintro ⟨mode, t, w, ud, lr, s, b1, b2, b3, b4, b5, b6, -, hne⟩
  exact hne (swap_steps_eq mode t w ud lr s b1 b2 b3 b4 b5 b6)

/-- Claim C2: decoding inverts encoding on every quarter-degree
temperature in [16, 31]. -/
theorem temp_roundtrip_quarter (t : ℚ) (h16 : 16 ≤ t) (h31 : t ≤ 31)
    (hq : ∃ k : ℤ, t = k / 4) :
    fromPioneerHex ((tempToPioneerHex t).getD 0 0) ((tempToPioneerHex t).getD 1 0) = t := by
  obtain ⟨k, rfl⟩ := hq
  obtain ⟨q, r, hr0, hr4, hk⟩ : ∃ q r : ℤ, 0 ≤ r ∧ r < 4 ∧ k = 4 * q + r :=
    ⟨k / 4, k % 4, by omega, by omega, by omega⟩
  subst hk
  have ht : ((4 * q + r : ℤ) : ℚ) / 4 = (q : ℚ) + (r : ℚ) / 4 := by
    push_cast
    ring
  rw [ht] at h16 h31 ⊢
  have hr0q : (0:ℚ) ≤ (r:ℚ) := by exact_mod_cast hr0
  have hr4q : (r:ℚ) < 4 := by exact_mod_cast hr4
  have hq16 : 16 ≤ q := by
    by_contra hc
    have hq15 : (q:ℚ) ≤ 15 := by exact_mod_cast (by omega : q ≤ 15)
    have : (q:ℚ) + (r:ℚ) / 4 < 16 := by linarith
    linarith
  have hq31 : q ≤ 31 := by
    by_contra hc
    have hq32 : (32:ℚ) ≤ (q:ℚ) := by exact_mod_cast (by omega : (32:ℤ) ≤ q)
    have : (31:ℚ) < (q:ℚ) + (r:ℚ) / 4 := by linarith
    linarith
  have hq0 : (0:ℚ) ≤ (q:ℚ) + (r:ℚ) / 4 := by linarith
  have hfloor : ⌊(q:ℚ) + (r:ℚ) / 4⌋ = q := by
    rw [add_comm, Int.floor_add_int]
    have hz : ⌊(r:ℚ) / 4⌋ = 0 :=
      Int.floor_eq_zero_iff.mpr ⟨by positivity, by linarith⟩
    rw [hz, zero_add]
  have hquant : toNearestQuarter ((q:ℚ) + (r:ℚ) / 4) = (q:ℚ) + (r:ℚ) / 4 := by
    unfold toNearestQuarter
    have hmul : ((q:ℚ) + (r:ℚ) / 4) * 4 = ((4 * q + r : ℤ) : ℚ) := by
      push_cast
      ring
    rw [hmul, Int.floor_intCast]
    push_cast
    ring
  have htrunc : truncToInt ((q:ℚ) + (r:ℚ) / 4) = q := by
    unfold truncToInt
    rw [if_pos hq0, hfloor]
  have hbyte : byteOf (31 - q) = (31 - q).toNat := by
    unfold byteOf
    rw [Int.emod_eq_of_lt (by omega) (by omega)]
  simp only [tempToPioneerHex, hquant, htrunc, hbyte, hfloor, List.getD_cons_zero,
    List.getD_cons_succ, fromPioneerHex]
  have hcastq : (((31 - q).toNat : ℕ) : ℚ) = 31 - (q:ℚ) := by
    have h31q : ((31 - q).toNat : ℤ) = 31 - q := Int.toNat_of_nonneg (by omega)
    exact_mod_cast h31q
  rw [hcastq]
  have hfrac : lastNibbleFrac (finalNibbleCode ((q:ℚ) + (r:ℚ) / 4 - (q:ℚ))) = (r:ℚ) / 4 := by
    have hsub : (q:ℚ) + (r:ℚ) / 4 - (q:ℚ) = (r:ℚ) / 4 := by ring
    rw [hsub]
    interval_cases r <;> norm_num [finalNibbleCode, lastNibbleFrac]
  rw [hfrac]
  ring

/-- Claim C2, witness: the round trip at 20.25 degrees. -/
theorem temp_roundtrip_quarter_witness :
    ((16:ℚ) ≤ 81 / 4 ∧ (81 / 4 : ℚ) ≤ 31) ∧
    fromPioneerHex ((tempToPioneerHex (81 / 4)).getD 0 0)
      ((tempToPioneerHex (81 / 4)).getD 1 0) = 81 / 4 :=
  ⟨⟨by norm_num, by norm_num⟩,
   temp_roundtrip_quarter (81 / 4) (by norm_num) (by norm_num) ⟨81, by norm_num⟩⟩

end Pioneer
